import Mathlib

/-!
Verification of the conversion core of the hololens-stl-loader repository.

The embedded code lives in src/src/main/ipc/handlers.ts:
  convertStlToObj        (lines 12-58)
  convertDicomToPng      (lines 61-153)
  the select-model-files loop   (lines 199-218)
  the select-dicom-folder loop  (lines 262-271)

JavaScript number arithmetic on the small integer sample values and the
exact division of the rescale formula are modelled over Int with exact
rational rounding; Math.round is floor of q + 1/2, clamping follows the
source. TypedArray views and Buffer index assignments follow their
JavaScript semantics: out-of-range reads give undefined (which the source
replaces by 0 via the logical-or operator) and out-of-range writes on a
Buffer are silently dropped.
-/

/-! ## DICOM rasterizer: data model (output of the external dicom-parser) -/

/-- Output of the external dicom-parser for the pixel data element
x7fe00010: a byte offset into the file buffer and a declared byte
length. -/
structure PixelDataElement where
  dataOffset : Nat
  length : Nat
  deriving DecidableEq, Repr

/-- Output of the external dicom-parser for one parsed data set, as
consumed by convertDicomToPng: the raw file bytes (each entry below 256),
the optional pixel data element, and the results of the uint16 attribute
reads for rows (x00280010), columns (x00280011) and bits allocated
(x00280100); a missing attribute is none. -/
structure DicomDataSet where
  bytes : List Nat
  pixelData : Option PixelDataElement
  rows16 : Option Nat
  cols16 : Option Nat
  bits16 : Option Nat
  deriving DecidableEq, Repr

/-- JavaScript logical-or against a numeric default, as in
dataSet.uint16(tag) || 512: an absent value (undefined) and the number 0
are both falsy and give the default. -/
def jsOrDefault (v : Option Nat) (d : Nat) : Nat :=
  match v with
  | none => d
  | some n => if n = 0 then d else n

/-- Byte read from the file buffer; positions past the end give the
default 0 (the source never reaches them when offset and length come from
the parser). -/
def byteAt (bytes : List Nat) (i : Nat) : Nat :=
  bytes.getD i 0

/-- Uint16Array view over the buffer at dataOffset with element count
length / 2, little endian, as built on line 83 of handlers.ts for
bitsAllocated = 16. -/
def samples16 (bytes : List Nat) (off len : Nat) : List Nat :=
  (List.range (len / 2)).map
    (fun i => byteAt bytes (off + 2 * i) + 256 * byteAt bytes (off + 2 * i + 1))

/-- Uint8Array view over the buffer at dataOffset with element count
length, as built on line 89 of handlers.ts for every other bitsAllocated
value. -/
def samples8 (bytes : List Nat) (off len : Nat) : List Nat :=
  (List.range len).map (fun i => byteAt bytes (off + i))

/-- Min and max scan of lines 100-107 of handlers.ts: minValue starts at
Infinity and maxValue at -Infinity, so the scan of an empty sample list is
modelled by none and otherwise yields the running minimum and maximum. -/
def scanMinMax (samples : List Nat) : Option (Nat × Nat) :=
  samples.foldl
    (fun acc v =>
      match acc with
      | none => some (v, v)
      | some (mn, mx) => some (min mn v, max mx v))
    none

/-- JavaScript Math.round of the exact quotient num / den for den > 0:
floor of the quotient plus one half. -/
def jsRound (num den : Int) : Int :=
  Int.fdiv (2 * num + den) (2 * den)

/-- Lines 117-128 of handlers.ts for one raw sample value: when the
scanned range is positive, Math.round of (raw - minValue) / valueRange
times 255, then clamped into 0..255 by Math.max and Math.min; otherwise
the fixed gray 128.  The empty scan leaves valueRange at -Infinity, which
also fails the valueRange > 0 test. -/
def rescaleSample (mm : Option (Nat × Nat)) (raw : Nat) : Nat :=
  match mm with
  | none => 128
  | some (mn, mx) =>
    if mn < mx then
      (max 0 (min 255 (jsRound (((raw : Int) - (mn : Int)) * 255) ((mx : Int) - (mn : Int))))).toNat
    else 128

/-- Value computed for loop position (y, x): the sample at
pixelIdx = y * columns + x, with the out-of-range (undefined) read
replaced by 0 through the logical-or on line 118, fed through the
rescale. -/
def pixelValueAt (samples : List Nat) (columns y x : Nat) : Nat :=
  rescaleSample (scanMinMax samples) (samples.getD (y * columns + x) 0)

/-- Node Buffer element assignment: an index past the end is silently
dropped. -/
def bufWrite (buf : List Nat) (i v : Nat) : List Nat :=
  if i < buf.length then buf.set i v else buf

/-- Lines 131-134 of handlers.ts: place the gray value in the R, G and B
bytes at idx and 255 in the alpha byte. -/
def writePixel (buf : List Nat) (idx v : Nat) : List Nat :=
  bufWrite (bufWrite (bufWrite (bufWrite buf idx v) (idx + 1) v) (idx + 2) v) (idx + 3) 255

/-- Double loop of lines 112-136 of handlers.ts over the zero-filled RGBA
buffer that pngjs allocates for width columns and height rows.  Note the
write index on line 114 is (rows * y + x) << 2 while the sample index on
line 115 is y * columns + x. -/
def renderLoop (samples : List Nat) (rows columns : Nat) : List Nat :=
  (List.range rows).foldl
    (fun buf y =>
      (List.range columns).foldl
        (fun buf x => writePixel buf (4 * (rows * y + x)) (pixelValueAt samples columns y x))
        buf)
    (List.replicate (4 * columns * rows) 0)

/-- Failure of convertDicomToPng modelled as a value: the throw on line 72
when the data set has no pixel data element. -/
inductive DicomError where
  | missingPixelData
  deriving DecidableEq, Repr

/-- The RGBA raster handed to the PNG encoder: dimensions from the pngjs
constructor call on line 97 and the filled data buffer. -/
structure PngImage where
  width : Nat
  height : Nat
  data : List Nat
  deriving DecidableEq, Repr

/-- Lines 61-136 of handlers.ts on an already parsed data set: fail when
the pixel data element is absent, read rows, columns and bitsAllocated
with their falsy-defaults, build the 16-bit or 8-bit sample view over the
element byte range, and run the render loop into a raster of width
columns and height rows. -/
def convertDicomToPng (ds : DicomDataSet) : Except DicomError PngImage :=
  match ds.pixelData with
  | none => Except.error DicomError.missingPixelData
  | some pde =>
    let rows := jsOrDefault ds.rows16 512
    let columns := jsOrDefault ds.cols16 512
    let bitsAllocated := jsOrDefault ds.bits16 16
    let pixelData :=
      if bitsAllocated = 16 then samples16 ds.bytes pde.dataOffset pde.length
      else samples8 ds.bytes pde.dataOffset pde.length
    Except.ok { width := columns, height := rows, data := renderLoop pixelData rows columns }

/-- Decidable equality for the conversion result, used to evaluate the
conversion on concrete inputs. -/
instance decEqExceptDicom : DecidableEq (Except DicomError PngImage) :=
  fun a b =>
    match a, b with
    | Except.ok x, Except.ok y =>
      if h : x = y then Decidable.isTrue (by rw [h])
      else Decidable.isFalse (by intro hc; cases hc; exact h rfl)
    | Except.error x, Except.error y =>
      if h : x = y then Decidable.isTrue (by rw [h])
      else Decidable.isFalse (by intro hc; cases hc; exact h rfl)
    | Except.ok _, Except.error _ => Decidable.isFalse (by intro hc; cases hc)
    | Except.error _, Except.ok _ => Decidable.isFalse (by intro hc; cases hc)

/-! ## Concrete DICOM inputs used to evaluate the conversion -/

/-- Non-flat 8-bit data set with 2 rows and 3 columns; samples 0..5, so
minValue = 0 and maxValue = 5. -/
def dsNonSquare : DicomDataSet :=
  { bytes := [0, 1, 2, 3, 4, 5], pixelData := some { dataOffset := 0, length := 6 },
    rows16 := some 2, cols16 := some 3, bits16 := some 8 }

/-- Flat 8-bit data set with 2 rows and 3 columns; every sample is the
constant 7, so maxValue = minValue. -/
def dsFlat : DicomDataSet :=
  { bytes := [7, 7, 7, 7, 7, 7], pixelData := some { dataOffset := 0, length := 6 },
    rows16 := some 1, cols16 := some 6, bits16 := some 8 }

/-- Flat 8-bit data set with 2 rows and 3 columns, used for the flat-gray
boundary claim. -/
def dsFlatNonSquare : DicomDataSet :=
  { bytes := [7, 7, 7, 7, 7, 7], pixelData := some { dataOffset := 0, length := 6 },
    rows16 := some 2, cols16 := some 3, bits16 := some 8 }

/-- Data set declaring bitsAllocated = 12, an unexpected bit width. -/
def dsBits12 : DicomDataSet :=
  { bytes := [5], pixelData := some { dataOffset := 0, length := 1 },
    rows16 := some 1, cols16 := some 1, bits16 := some 12 }

/-- Data set declaring bitsAllocated = 32, another unexpected bit width. -/
def dsBits32 : DicomDataSet :=
  { bytes := [9, 9], pixelData := some { dataOffset := 0, length := 2 },
    rows16 := some 1, cols16 := some 2, bits16 := some 32 }

/-- Parsed data set with no pixel data element. -/
def dsNoPixelData : DicomDataSet :=
  { bytes := [1, 2, 3], pixelData := none, rows16 := some 4, cols16 := some 4, bits16 := some 8 }

/-- Data set whose rows and columns attributes are absent while
bitsAllocated = 16 is present. -/
def dsRowsColsMissing : DicomDataSet :=
  { bytes := [1, 2, 3, 4], pixelData := some { dataOffset := 0, length := 4 },
    rows16 := none, cols16 := none, bits16 := some 16 }

/-- Data set declaring a 0-by-0 image while bitsAllocated = 16 is
present. -/
def dsZeroRowsCols : DicomDataSet :=
  { bytes := [1, 2, 3, 4], pixelData := some { dataOffset := 0, length := 4 },
    rows16 := some 0, cols16 := some 0, bits16 := some 16 }

/-! ## Mesh converter: data model

The repository code parses the STL buffer through the external
three-stdlib STLLoader into a three.js BufferGeometry whose attributes
are flat per-vertex component arrays. -/

/-- One 3-component vector of a binary STL record; the component values
are the exact rationals denoted by the 32-bit floats of the record. -/
structure Vec3 where
  x : ℚ
  y : ℚ
  z : ℚ
  deriving DecidableEq, Repr

/-- One triangle record of a binary STL file after byte decoding: the
12-byte normal and the three 12-byte vertex positions (the 2-byte
attribute field is discarded by the loader). -/
structure StlTriangle where
  n : Vec3
  v1 : Vec3
  v2 : Vec3
  v3 : Vec3
  deriving DecidableEq, Repr

/-- A three.js BufferGeometry as consumed by convertStlToObj: flat
per-vertex component arrays, three components per vertex; the normal
attribute may be absent. -/
structure BufferGeometry where
  position : List ℚ
  normal : Option (List ℚ)
  deriving DecidableEq, Repr

/-- Per-vertex position components produced by the external STLLoader for
a binary STL: each triangle contributes its three vertices in order,
nine components per triangle. -/
def stlPositions : List StlTriangle → List ℚ
  | [] => []
  | t :: ts =>
    [t.v1.x, t.v1.y, t.v1.z, t.v2.x, t.v2.y, t.v2.z, t.v3.x, t.v3.y, t.v3.z] ++ stlPositions ts

/-- Per-vertex normal components produced by the external STLLoader for a
binary STL: the record normal of each triangle is repeated for each of
its three vertices, nine components per triangle. -/
def stlNormals : List StlTriangle → List ℚ
  | [] => []
  | t :: ts =>
    [t.n.x, t.n.y, t.n.z, t.n.x, t.n.y, t.n.z, t.n.x, t.n.y, t.n.z] ++ stlNormals ts

/-- Binary parse of the external three-stdlib STLLoader called on line 22
of handlers.ts, on an already byte-decoded record list: it always sets
both the position attribute and the normal attribute (the normal array is
filled from the record normals even when they are all zero). -/
def stlLoaderParse (tris : List StlTriangle) : BufferGeometry :=
  { position := stlPositions tris, normal := some (stlNormals tris) }

/-- One line of the generated OBJ text: the leading comment, a vertex
line, a normal line, a face line in paired i//i j//j k//k form, or a face
line with bare indices. -/
inductive ObjLine where
  | comment : ObjLine
  | v : ℚ → ℚ → ℚ → ObjLine
  | vn : ℚ → ℚ → ℚ → ObjLine
  | fPaired : Nat → Nat → Nat → ObjLine
  | fBare : Nat → Nat → Nat → ObjLine
  deriving DecidableEq, Repr

/-- Start indices of the face lines written by the loop on lines 43-49 of
handlers.ts: i runs over 1, 4, 7, ... while i is at most
vertexCount = positions.length / 3 (an exact JavaScript division, so the
bound i <= length / 3 is the integer condition 3 * i <= length).  The
list enumerates exactly those i = 3 * m + 1 in increasing order. -/
def faceStarts (len : Nat) : List Nat :=
  ((List.range len).filter (fun m => 3 * (3 * m + 1) ≤ len)).map (fun m => 3 * m + 1)

/-- Lines 24-49 of handlers.ts on a parsed geometry, with the generated
text represented line by line: the header comment, one v line per three
position components, one vn line per three normal components when the
normal attribute is present, then one face line per index triple, in
paired form exactly when the normal attribute is present.  Trailing
positions of a component array whose length is not a multiple of three
would print as undefined in JavaScript; they are modelled by the default
component 0 and never arise from the loader. -/
def convertStlToObj (g : BufferGeometry) : List ObjLine :=
  let vLines := (List.range ((g.position.length + 2) / 3)).map
    (fun i => ObjLine.v (g.position.getD (3 * i) 0) (g.position.getD (3 * i + 1) 0)
      (g.position.getD (3 * i + 2) 0))
  let vnLines :=
    match g.normal with
    | some normals =>
      (List.range ((normals.length + 2) / 3)).map
        (fun i => ObjLine.vn (normals.getD (3 * i) 0) (normals.getD (3 * i + 1) 0)
          (normals.getD (3 * i + 2) 0))
    | none => []
  let faceLines :=
    (faceStarts g.position.length).map
      (fun i =>
        match g.normal with
        | some _ => ObjLine.fPaired i (i + 1) (i + 2)
        | none => ObjLine.fBare i (i + 1) (i + 2))
  ObjLine.comment :: (vLines ++ vnLines ++ faceLines)

/-- Recognizer for v lines. -/
def ObjLine.isV : ObjLine → Bool
  | ObjLine.v _ _ _ => true
  | _ => false

/-- Recognizer for vn lines. -/
def ObjLine.isVn : ObjLine → Bool
  | ObjLine.vn _ _ _ => true
  | _ => false

/-- Recognizer for face lines of either form. -/
def ObjLine.isF : ObjLine → Bool
  | ObjLine.fPaired _ _ _ => true
  | ObjLine.fBare _ _ _ => true
  | _ => false

/-- Recognizer for face lines with bare indices. -/
def ObjLine.isFBare : ObjLine → Bool
  | ObjLine.fBare _ _ _ => true
  | _ => false

/-- Number of v lines in an output. -/
def countV (ls : List ObjLine) : Nat := ls.countP ObjLine.isV

/-- Number of vn lines in an output. -/
def countVn (ls : List ObjLine) : Nat := ls.countP ObjLine.isVn

/-- Number of face lines in an output. -/
def countF (ls : List ObjLine) : Nat := ls.countP ObjLine.isF

/-- A concrete one-triangle input whose record normal is non-zero. -/
def oneTriangle : List StlTriangle :=
  [{ n := { x := 0, y := 0, z := 1 }, v1 := { x := 0, y := 0, z := 0 },
     v2 := { x := 1, y := 0, z := 0 }, v3 := { x := 0, y := 1, z := 0 } }]

/-! ## File selection orchestration: extension dispatch and batch loops -/

/-- ASCII lowercase of one character, as applied by toLowerCase to the
characters of a file extension. -/
def lowerChar (c : Char) : Char :=
  if 65 ≤ c.toNat ∧ c.toNat ≤ 90 then Char.ofNat (c.toNat + 32) else c

/-- Base name of a path: the characters after the last path separator
(slash or backslash, as in the Node path module). -/
def basenameChars (cs : List Char) : List Char :=
  cs.foldl (fun acc c => if c = '/' ∨ c = '\\' then [] else acc ++ [c]) []

/-- Characters after the last dot of a list, or none when the list has no
dot. -/
def afterLastDot : List Char → Option (List Char)
  | [] => none
  | c :: cs =>
    match afterLastDot cs with
    | some e => some e
    | none => if c = '.' then some cs else none

/-- Model of path.extname(p).toLowerCase() as used on line 200 of
handlers.ts: the extension starts at the last dot of the base name unless
that dot is its first character, and is lowercased. -/
def extnameLower (p : String) : String :=
  match basenameChars p.toList with
  | [] => ""
  | _ :: rest =>
    match afterLastDot rest with
    | some e => String.mk ('.' :: e.map lowerChar)
    | none => ""

/-- Loop of lines 199-218 of handlers.ts over the selected file paths:
a path with extension .stl is converted and replaced by the produced obj
path, but kept unchanged when the conversion fails; every other path is
kept as is.  The conversion outcome is abstracted as an Except valued
function. -/
def processModelFiles {E : Type} (convertStl : String → Except E String)
    (filePaths : List String) : List String :=
  filePaths.foldl
    (fun processedFiles filePath =>
      if extnameLower filePath = ".stl" then
        match convertStl filePath with
        | Except.ok objFilePath => processedFiles ++ [objFilePath]
        | Except.error _ => processedFiles ++ [filePath]
      else processedFiles ++ [filePath])
    []

/-- Loop of lines 262-271 of handlers.ts over the .dcm files of the
selected folder: each successful conversion appends its png path, and a
failure is logged and skipped without stopping the loop. -/
def convertDicomBatch {E : Type} (convertDicom : String → Except E String)
    (dicomFiles : List String) : List String :=
  dicomFiles.foldl
    (fun convertedFiles dicomFile =>
      match convertDicom dicomFile with
      | Except.ok pngFile => convertedFiles ++ [pngFile]
      | Except.error _ => convertedFiles)
    []

/-- The raster the conversion produces for dsNonSquare (computed below by
the kernel): the bytes of pixel slot 2 are overwritten by the write for
loop position y = 1, x = 0, and pixel slot 5 is never written. -/
def misRaster : List Nat :=
  [0, 0, 0, 255, 51, 51, 51, 255, 153, 153, 153, 255, 204, 204, 204, 255,
   255, 255, 255, 255, 0, 0, 0, 0]

/-- The raster the conversion produces for dsFlatNonSquare: the first five
pixel slots receive the neutral gray, and pixel slot 5 keeps the
zero-initialized bytes. -/
def flatRaster : List Nat :=
  [128, 128, 128, 255, 128, 128, 128, 255, 128, 128, 128, 255, 128, 128, 128, 255,
   128, 128, 128, 255, 0, 0, 0, 0]

/-! ## Helper lemmas -/

theorem stlPositions_length (tris : List StlTriangle) :
    (stlPositions tris).length = 9 * tris.length := by
  induction tris with
  | nil => rfl
  | cons t ts ih =>
    simp only [stlPositions, List.length_append, ih, List.length_cons]
    simp [List.length_cons]
    omega

theorem stlNormals_length (tris : List StlTriangle) :
    (stlNormals tris).length = 9 * tris.length := by
  induction tris with
  | nil => rfl
  | cons t ts ih =>
    simp only [stlNormals, List.length_append, ih, List.length_cons]
    simp [List.length_cons]
    omega

theorem filter_range_lt (N L : Nat) (h : N ≤ L) :
    (List.range L).filter (fun m => decide (m < N)) = List.range N := by
  induction L with
  | zero =>
    have hN : N = 0 := Nat.le_zero.mp h
    subst hN
    rfl
  | succ L ih =>
    by_cases hNL : N ≤ L
    · rw [List.range_succ, List.filter_append, ih hNL]
      have hone : List.filter (fun m => decide (m < N)) [L] = [] := by
        simp only [List.filter]
        have : ¬ (L < N) := by omega
        simp [this]
      rw [hone, List.append_nil]
    · have hN : N = L + 1 := by omega
      subst hN
      apply List.filter_eq_self.mpr
      intro a ha
      simp only [decide_eq_true_eq]
      exact List.mem_range.mp ha

theorem faceStarts_nine (N : Nat) :
    faceStarts (9 * N) = (List.range N).map (fun m => 3 * m + 1) := by
  unfold faceStarts
  have h1 : (List.range (9 * N)).filter (fun m => decide (3 * (3 * m + 1) ≤ 9 * N)) =
      (List.range (9 * N)).filter (fun m => decide (m < N)) := by
    apply List.filter_congr
    intro x _
    simp only [decide_eq_decide]
    omega
  rw [h1, filter_range_lt N (9 * N) (by omega)]

/-- Shape of the output for a loader-parsed binary STL with N triangles:
the comment, 3 N vertex lines, 3 N normal lines and N paired face lines
with the indices 3 i + 1, 3 i + 2, 3 i + 3. -/
theorem convert_parse_shape (tris : List StlTriangle) :
    convertStlToObj (stlLoaderParse tris) =
      ObjLine.comment ::
        ((List.range (3 * tris.length)).map
            (fun i => ObjLine.v ((stlPositions tris).getD (3 * i) 0)
              ((stlPositions tris).getD (3 * i + 1) 0) ((stlPositions tris).getD (3 * i + 2) 0)) ++
          (List.range (3 * tris.length)).map
            (fun i => ObjLine.vn ((stlNormals tris).getD (3 * i) 0)
              ((stlNormals tris).getD (3 * i + 1) 0) ((stlNormals tris).getD (3 * i + 2) 0)) ++
          (List.range tris.length).map
            (fun i => ObjLine.fPaired (3 * i + 1) (3 * i + 2) (3 * i + 3))) := by
  simp only [convertStlToObj, stlLoaderParse]
  rw [stlPositions_length, stlNormals_length]
  have h3 : (9 * tris.length + 2) / 3 = 3 * tris.length := by omega
  rw [h3, faceStarts_nine, List.map_map]
  rfl

theorem foldl_push_eq {α β : Type} (g : α → β) (l : List α) (init : List β) :
    l.foldl (fun acc x => acc ++ [g x]) init = init ++ l.map g := by
  induction l generalizing init with
  | nil => simp
  | cons a l ih => simp [List.foldl_cons, ih, List.append_assoc]

/-- The select-model-files loop is elementwise: each selected path maps to
the converted path for a successfully converted .stl file, and to itself
otherwise. -/
theorem processModelFiles_eq {E : Type} (convertStl : String → Except E String)
    (files : List String) :
    processModelFiles convertStl files = files.map (fun f =>
      if extnameLower f = ".stl" then
        match convertStl f with
        | Except.ok o => o
        | Except.error _ => f
      else f) := by
  unfold processModelFiles
  have hb : (fun (acc : List String) (filePath : String) =>
      if extnameLower filePath = ".stl" then
        match convertStl filePath with
        | Except.ok objFilePath => acc ++ [objFilePath]
        | Except.error _ => acc ++ [filePath]
      else acc ++ [filePath]) = (fun acc filePath => acc ++ [(fun f =>
      if extnameLower f = ".stl" then
        match convertStl f with
        | Except.ok o => o
        | Except.error _ => f
      else f) filePath]) := by
    funext acc f
    by_cases h : extnameLower f = ".stl"
    · simp only [if_pos h]
      cases convertStl f <;> rfl
    · simp only [if_neg h]
  rw [hb, foldl_push_eq]
  simp

theorem convertDicomBatch_aux {E : Type} (conv : String → Except E String)
    (files : List String) (init : List String) :
    files.foldl (fun acc f => match conv f with
      | Except.ok p => acc ++ [p]
      | Except.error _ => acc) init
      = init ++ files.filterMap (fun f => (conv f).toOption) := by
  induction files generalizing init with
  | nil => simp
  | cons a l ih =>
    cases hg : conv a with
    | ok p => simp [List.foldl_cons, hg, ih, List.filterMap_cons, Except.toOption, List.append_assoc]
    | error e => simp [List.foldl_cons, hg, ih, List.filterMap_cons, Except.toOption]

/-- The select-dicom-folder loop keeps exactly the successful conversions,
in order, over the whole file list. -/
theorem convertDicomBatch_eq {E : Type} (conv : String → Except E String) (files : List String) :
    convertDicomBatch conv files = files.filterMap (fun f => (conv f).toOption) := by
  unfold convertDicomBatch
  rw [convertDicomBatch_aux]
  simp

/-- The conversion reads the three geometry attributes only through their
falsy-defaults: two data sets with the same bytes and pixel data element
whose defaulted attribute reads agree convert identically. -/
theorem convertDicomToPng_congr (ds1 ds2 : DicomDataSet)
    (hbytes : ds1.bytes = ds2.bytes) (hpix : ds1.pixelData = ds2.pixelData)
    (hr : jsOrDefault ds1.rows16 512 = jsOrDefault ds2.rows16 512)
    (hc : jsOrDefault ds1.cols16 512 = jsOrDefault ds2.cols16 512)
    (hb : jsOrDefault ds1.bits16 16 = jsOrDefault ds2.bits16 16) :
    convertDicomToPng ds1 = convertDicomToPng ds2 := by
  unfold convertDicomToPng
  simp only [hbytes, hpix, hr, hc, hb]

/-! ## Claim theorems -/

/-- Claim C1 (code bug). The claim states that the rescaled value of the
sample at row y and column x is written into the RGBA pixel at offset
4 * (y * columns + x) of a row-major buffer of width columns, with alpha
255.  The code instead writes at offset 4 * (rows * y + x) (line 114 of
handlers.ts), which scrambles and truncates every non-square image.  For
the 2-by-3 data set dsNonSquare the value computed for position y = 1,
x = 2 is 255, but the produced raster holds 0 in all four bytes of the
pixel at offset 4 * (1 * 3 + 2): the last pixel is never written and
keeps the zero-initialized bytes, so its alpha is 0 rather than 255. -/
theorem dicom_write_index_transposed_bug :
    convertDicomToPng dsNonSquare = Except.ok (PngImage.mk 3 2 misRaster) ∧
    pixelValueAt (samples8 dsNonSquare.bytes 0 6) 3 1 2 = 255 ∧
    misRaster.getD (4 * (1 * 3 + 2)) 0 = 0 ∧
    misRaster.getD (4 * (1 * 3 + 2) + 3) 0 = 0 := by
  decide

/-- Claim C2 (counterexample). For the one-triangle binary STL input
oneTriangle, whose record normal is the non-zero vector (0, 0, 1), the
claim demands exactly N = 1 vn line; the output contains 3 vn lines,
because the loader exposes one normal per vertex and the emission loop on
lines 36-38 of handlers.ts walks that per-vertex array. -/
theorem stl_one_triangle_emits_three_vn_lines :
    countVn (convertStlToObj (stlLoaderParse oneTriangle)) = 3 ∧
    countVn (convertStlToObj (stlLoaderParse oneTriangle)) ≠ 1 := by
  decide

/-- Claim C2 (amended). For every binary STL input with N triangles the
loader always supplies a per-vertex normal attribute (each record normal
repeated for the three vertices of its triangle, even when every record
normal is zero), so the output contains exactly 3 N vn lines and no face
line ever uses the bare-index form: the bare branch of the face loop is
unreachable for binary STL input. -/
theorem stl_vn_lines_per_vertex_and_paired_faces (tris : List StlTriangle) :
    countVn (convertStlToObj (stlLoaderParse tris)) = 3 * tris.length ∧
    (convertStlToObj (stlLoaderParse tris)).countP ObjLine.isFBare = 0 := by
  have hshape := convert_parse_shape tris
  constructor
  · rw [countVn, hshape]
    simp [List.countP_cons, List.countP_append, List.countP_map, Function.comp_def,
      ObjLine.isVn, List.countP_true, List.countP_false, List.length_range]
  · rw [hshape]
    simp [List.countP_cons, List.countP_append, List.countP_map, Function.comp_def,
      ObjLine.isFBare, List.countP_true, List.countP_false]

/-- Claim C3 (confirmed). For every binary STL input with N triangles the
output contains exactly 3 N v lines and exactly N face lines, and the
face line for triangle i (0-based) references exactly the 1-based
position indices 3 i + 1, 3 i + 2, 3 i + 3. -/
theorem stl_vertex_and_face_line_counts (tris : List StlTriangle) :
    countV (convertStlToObj (stlLoaderParse tris)) = 3 * tris.length ∧
    countF (convertStlToObj (stlLoaderParse tris)) = tris.length ∧
    (convertStlToObj (stlLoaderParse tris)).filter ObjLine.isF =
      (List.range tris.length).map (fun i => ObjLine.fPaired (3 * i + 1) (3 * i + 2) (3 * i + 3)) := by
  have hshape := convert_parse_shape tris
  refine ⟨?_, ?_, ?_⟩
  · rw [countV, hshape]
    simp [List.countP_cons, List.countP_append, List.countP_map, Function.comp_def,
      ObjLine.isV, List.countP_true, List.countP_false, List.length_range]
  · rw [countF, hshape]
    simp [List.countP_cons, List.countP_append, List.countP_map, Function.comp_def,
      ObjLine.isF, List.countP_true, List.countP_false, List.length_range]
  · rw [hshape]
    simp [List.filter_cons, List.filter_append, List.filter_map, Function.comp_def,
      ObjLine.isF, List.filter_true, List.filter_false]

/-- Claim C4 (code bug). The claim states that a data set whose samples
all equal one constant k yields the pixel (128, 128, 128, 255) at every
position.  Because of the transposed write index of line 114 of
handlers.ts, the 2-by-3 flat data set dsFlatNonSquare (k = 7) leaves its
last pixel slot untouched: the bytes at offsets 20..23 stay
(0, 0, 0, 0) instead of (128, 128, 128, 255). -/
theorem dicom_flat_image_unwritten_pixel_bug :
    convertDicomToPng dsFlatNonSquare = Except.ok (PngImage.mk 3 2 flatRaster) ∧
    flatRaster.getD (4 * (1 * 3 + 2)) 0 = 0 ∧
    flatRaster.getD (4 * (1 * 3 + 2) + 3) 0 = 0 := by
  decide

/-- Claim C5 (confirmed). For every parsed data set without a pixel data
element the conversion fails with the missing-pixel-data error and
produces no image. -/
theorem dicom_missing_pixel_data_fails (ds : DicomDataSet) (h : ds.pixelData = none) :
    convertDicomToPng ds = Except.error DicomError.missingPixelData := by
  unfold convertDicomToPng
  rw [h]

/-- Claim C5 witness at the concrete data set dsNoPixelData. -/
theorem dicom_missing_pixel_data_fails_witness :
    convertDicomToPng dsNoPixelData = Except.error DicomError.missingPixelData :=
  dicom_missing_pixel_data_fails dsNoPixelData rfl

/-- Claim C6 (counterexample). The data set dsBits12 declares the
unexpected bit width 12, for which the claim demands a failure with
UnsupportedEncodingError; the conversion instead succeeds and returns an
image, because the code has no bit width or transfer syntax check at all
and treats every width other than 16 as 8-bit data. -/
theorem dicom_bits12_conversion_succeeds :
    convertDicomToPng dsBits12 = Except.ok (PngImage.mk 1 1 [128, 128, 128, 255]) := by
  decide

/-- Claim C6 (amended). For every data set with a pixel data element and
a present, non-zero bits-allocated value b different from 16, the
conversion succeeds, reinterpreting the element bytes as 8-bit samples;
no unsupported-encoding failure exists in the code. -/
theorem dicom_unexpected_bit_width_treated_as_8bit (ds : DicomDataSet)
    (pde : PixelDataElement) (b : Nat) (hp : ds.pixelData = some pde)
    (hb : ds.bits16 = some b) (hb0 : b ≠ 0) (hb16 : b ≠ 16) :
    convertDicomToPng ds =
      Except.ok (PngImage.mk (jsOrDefault ds.cols16 512) (jsOrDefault ds.rows16 512)
        (renderLoop (samples8 ds.bytes pde.dataOffset pde.length)
          (jsOrDefault ds.rows16 512) (jsOrDefault ds.cols16 512))) := by
  unfold convertDicomToPng
  rw [hp, hb]
  simp only [jsOrDefault, if_neg hb0, if_neg hb16]

/-- Claim C6 witness at the concrete data set dsBits32. -/
theorem dicom_unexpected_bit_width_treated_as_8bit_witness :
    convertDicomToPng dsBits32 =
      Except.ok (PngImage.mk (jsOrDefault dsBits32.cols16 512) (jsOrDefault dsBits32.rows16 512)
        (renderLoop (samples8 dsBits32.bytes 0 2)
          (jsOrDefault dsBits32.rows16 512) (jsOrDefault dsBits32.cols16 512))) :=
  dicom_unexpected_bit_width_treated_as_8bit dsBits32 { dataOffset := 0, length := 2 } 32
    rfl rfl (by decide) (by decide)

/-- Claim C7 (confirmed). Each geometry attribute that is absent is
independently replaced by its default — a data set with rows (resp.
columns, bits-allocated) absent converts exactly like the same data set
with that attribute set to 512 (resp. 512, 16), whatever the other
attributes hold; the conversion succeeds for every data set with a pixel
data element, so the fallback is never an error; and when rows and
columns are both missing the output raster is 512-by-512. -/
theorem dicom_absent_geometry_defaults :
    (∀ ds : DicomDataSet, ds.rows16 = none →
        convertDicomToPng ds = convertDicomToPng { ds with rows16 := some 512 }) ∧
    (∀ ds : DicomDataSet, ds.cols16 = none →
        convertDicomToPng ds = convertDicomToPng { ds with cols16 := some 512 }) ∧
    (∀ ds : DicomDataSet, ds.bits16 = none →
        convertDicomToPng ds = convertDicomToPng { ds with bits16 := some 16 }) ∧
    (∀ (ds : DicomDataSet) (pde : PixelDataElement), ds.pixelData = some pde →
        ∃ img : PngImage, convertDicomToPng ds = Except.ok img) ∧
    (∀ (ds : DicomDataSet) (pde : PixelDataElement), ds.pixelData = some pde →
        ds.rows16 = none → ds.cols16 = none →
        ∃ img : PngImage, convertDicomToPng ds = Except.ok img ∧
          img.width = 512 ∧ img.height = 512) := by
  refine ⟨?_, ?_, ?_, ?_, ?_⟩
  · intro ds h
    exact convertDicomToPng_congr ds { ds with rows16 := some 512 } rfl rfl (by rw [h]; rfl) rfl rfl
  · intro ds h
    exact convertDicomToPng_congr ds { ds with cols16 := some 512 } rfl rfl rfl (by rw [h]; rfl) rfl
  · intro ds h
    exact convertDicomToPng_congr ds { ds with bits16 := some 16 } rfl rfl rfl rfl (by rw [h]; rfl)
  · intro ds pde hp
    unfold convertDicomToPng
    rw [hp]
    exact ⟨_, rfl⟩
  · intro ds pde hp hr hc
    unfold convertDicomToPng
    simp only [hp, hr, hc]
    exact ⟨_, rfl, rfl, rfl⟩

/-- Claim C7 witness at the concrete data set dsRowsColsMissing, whose
bits-allocated attribute is present while rows and columns are absent. -/
theorem dicom_absent_geometry_defaults_witness :
    convertDicomToPng dsRowsColsMissing =
      convertDicomToPng { dsRowsColsMissing with rows16 := some 512 } ∧
    (∃ img : PngImage, convertDicomToPng dsRowsColsMissing = Except.ok img ∧
      img.width = 512 ∧ img.height = 512) :=
  ⟨dicom_absent_geometry_defaults.1 dsRowsColsMissing rfl,
   dicom_absent_geometry_defaults.2.2.2.2 dsRowsColsMissing { dataOffset := 0, length := 4 }
     rfl rfl rfl⟩

/-- Claim C8 (confirmed). A failed conversion never aborts a batch or
drops a file: in the model-files loop a .stl path whose conversion fails
is still forwarded unchanged and the result list keeps one entry per
selected file, and the DICOM folder loop converts every file whose
conversion succeeds, regardless of failures among the others. -/
theorem conversion_failure_recoverable_batches :
    (∀ (E : Type) (convertStl : String → Except E String) (files : List String) (f : String)
        (e : E), f ∈ files → extnameLower f = ".stl" → convertStl f = Except.error e →
        f ∈ processModelFiles convertStl files) ∧
    (∀ (E : Type) (convertStl : String → Except E String) (files : List String),
        (processModelFiles convertStl files).length = files.length) ∧
    (∀ (E : Type) (convertDicom : String → Except E String) (files : List String),
        convertDicomBatch convertDicom files =
          files.filterMap (fun f => (convertDicom f).toOption)) := by
  refine ⟨?_, ?_, ?_⟩
  · intro E conv files f e hmem hext herr
    rw [processModelFiles_eq]
    apply List.mem_map.mpr
    refine ⟨f, hmem, ?_⟩
    rw [if_pos hext, herr]
  · intro E conv files
    rw [processModelFiles_eq, List.length_map]
  · intro E conv files
    exact convertDicomBatch_eq conv files

/-- Claim C8 witness: an always-failing STL conversion still forwards the
original path, and a DICOM batch with one failing file equals the ordered
successful conversions of the whole list. -/
theorem conversion_failure_recoverable_batches_witness :
    "model.stl" ∈ processModelFiles (fun _ => (Except.error () : Except Unit String)) ["model.stl"] ∧
    convertDicomBatch
        (fun f => if f = "bad.dcm" then (Except.error () : Except Unit String)
          else Except.ok "good.png") ["bad.dcm", "good.dcm"] =
      List.filterMap
        (fun f => ((fun f => if f = "bad.dcm" then (Except.error () : Except Unit String)
          else Except.ok "good.png") f).toOption) ["bad.dcm", "good.dcm"] :=
  ⟨conversion_failure_recoverable_batches.1 Unit (fun _ => Except.error ()) ["model.stl"]
      "model.stl" () (List.mem_singleton.mpr rfl) (by decide) rfl,
   conversion_failure_recoverable_batches.2.2 Unit
      (fun f => if f = "bad.dcm" then Except.error () else Except.ok "good.png")
      ["bad.dcm", "good.dcm"]⟩

/-- Claim C9 (confirmed). An attribute that is present but zero is
treated exactly like an absent one, independently for each of rows,
columns and bits-allocated: the conversion of a data set with the
attribute at zero equals the conversion with that attribute removed
(the falsy test of the logical-or, not an absence test); in particular a
declared 0-by-0 image with a pixel data element still converts
successfully into a 512-by-512 raster. -/
theorem dicom_zero_geometry_like_absent :
    (∀ ds : DicomDataSet, ds.rows16 = some 0 →
        convertDicomToPng ds = convertDicomToPng { ds with rows16 := none }) ∧
    (∀ ds : DicomDataSet, ds.cols16 = some 0 →
        convertDicomToPng ds = convertDicomToPng { ds with cols16 := none }) ∧
    (∀ ds : DicomDataSet, ds.bits16 = some 0 →
        convertDicomToPng ds = convertDicomToPng { ds with bits16 := none }) ∧
    (∀ (ds : DicomDataSet) (pde : PixelDataElement), ds.pixelData = some pde →
        ds.rows16 = some 0 → ds.cols16 = some 0 →
        ∃ img : PngImage, convertDicomToPng ds = Except.ok img ∧
          img.width = 512 ∧ img.height = 512) := by
  refine ⟨?_, ?_, ?_, ?_⟩
  · intro ds h
    exact convertDicomToPng_congr ds { ds with rows16 := none } rfl rfl (by rw [h]; rfl) rfl rfl
  · intro ds h
    exact convertDicomToPng_congr ds { ds with cols16 := none } rfl rfl rfl (by rw [h]; rfl) rfl
  · intro ds h
    exact convertDicomToPng_congr ds { ds with bits16 := none } rfl rfl rfl rfl (by rw [h]; rfl)
  · intro ds pde hp hr hc
    unfold convertDicomToPng
    simp only [hp, hr, hc]
    exact ⟨_, rfl, rfl, rfl⟩

/-- Claim C9 witness at the concrete data set dsZeroRowsCols, which
declares a 0-by-0 image while bits-allocated is present with value 16. -/
theorem dicom_zero_geometry_like_absent_witness :
    convertDicomToPng dsZeroRowsCols =
      convertDicomToPng { dsZeroRowsCols with rows16 := none } ∧
    (∃ img : PngImage, convertDicomToPng dsZeroRowsCols = Except.ok img ∧
      img.width = 512 ∧ img.height = 512) :=
  ⟨dicom_zero_geometry_like_absent.1 dsZeroRowsCols rfl,
   dicom_zero_geometry_like_absent.2.2.2 dsZeroRowsCols { dataOffset := 0, length := 4 }
     rfl rfl rfl⟩

/-- Claim C10 (confirmed). The sample views are bounded by the declared
element byte range (two byte buffers agreeing on that range give the same
samples, for the 16-bit and the 8-bit view alike); a pixel position whose
sample index falls beyond the available samples is rendered from the raw
value 0 fed through the same rescale as every other sample; and the
conversion never fails once a pixel data element is present. -/
theorem dicom_short_pixel_data_safe :
    (∀ (bytes1 bytes2 : List Nat) (off len : Nat),
        (∀ j, off ≤ j → j < off + len → byteAt bytes1 j = byteAt bytes2 j) →
        samples16 bytes1 off len = samples16 bytes2 off len) ∧
    (∀ (bytes1 bytes2 : List Nat) (off len : Nat),
        (∀ j, off ≤ j → j < off + len → byteAt bytes1 j = byteAt bytes2 j) →
        samples8 bytes1 off len = samples8 bytes2 off len) ∧
    (∀ (samples : List Nat) (columns y x : Nat),
        samples.length ≤ y * columns + x →
        pixelValueAt samples columns y x = rescaleSample (scanMinMax samples) 0) ∧
    (∀ (ds : DicomDataSet) (pde : PixelDataElement), ds.pixelData = some pde →
        (convertDicomToPng ds).isOk = true) := by
  refine ⟨?_, ?_, ?_, ?_⟩
  · intro b1 b2 off len hagree
    unfold samples16
    apply List.map_congr_left
    intro i hi
    have hi2 : i < len / 2 := List.mem_range.mp hi
    rw [hagree (off + 2 * i) (by omega) (by omega), hagree (off + 2 * i + 1) (by omega) (by omega)]
  · intro b1 b2 off len hagree
    unfold samples8
    apply List.map_congr_left
    intro i hi
    have hi2 : i < len := List.mem_range.mp hi
    rw [hagree (off + i) (by omega) (by omega)]
  · intro samples cols y x h
    unfold pixelValueAt
    rw [List.getD_eq_default _ _ h]
  · intro ds pde hp
    unfold convertDicomToPng
    rw [hp]
    rfl

/-- Claim C10 witness: byte buffers differing only outside the declared
range give equal sample views, an out-of-range pixel position takes the
rescale of raw value 0, and the conversion of dsFlat succeeds. -/
theorem dicom_short_pixel_data_safe_witness :
    samples16 [1, 2, 9] 0 2 = samples16 [1, 2, 7] 0 2 ∧
    samples8 [1, 2, 9] 0 2 = samples8 [1, 2, 7] 0 2 ∧
    pixelValueAt [3, 8] 2 1 0 = rescaleSample (scanMinMax [3, 8]) 0 ∧
    (convertDicomToPng dsFlat).isOk = true :=
  ⟨dicom_short_pixel_data_safe.1 [1, 2, 9] [1, 2, 7] 0 2
      (by intro j h1 h2; interval_cases j <;> rfl),
   dicom_short_pixel_data_safe.2.1 [1, 2, 9] [1, 2, 7] 0 2
      (by intro j h1 h2; interval_cases j <;> rfl),
   dicom_short_pixel_data_safe.2.2.1 [3, 8] 2 1 0 (by decide),
   dicom_short_pixel_data_safe.2.2.2 dsFlat { dataOffset := 0, length := 6 } rfl⟩
